import Mathlib

/-!
Verification of the server-authoritative race clock of the Vera-Team
dashboard.  The definitions below are a shallow embedding of the
current web hook (`useRaceState` with clock synchronisation, the file
storing `started_at_ms` / `paused_offset_ms`) and of the Android
view-model's clock-sync loop.  Times are modelled as mathematical
integers (milliseconds); the corrected clock reading
`correctedNow = Date.now() + clockOffset` is passed in as the `now`
argument of each calculator function.
-/

/-- The client-side race state snapshot (`RaceState` interface of the
web hook): running flag, authority-time start timestamp (nullable),
accumulated pause offset, completed lap durations in whole seconds, and
total race duration in milliseconds. -/
structure RaceState where
  isRunning : Bool
  startedAtMs : Option Int
  pausedOffsetMs : Int
  lapTimes : List Int
  totalRaceTimeMs : Int
deriving DecidableEq, Repr

/-- Embedding of `getRemainingMs`: when the race is not running or the
start timestamp is null it returns the full race time; otherwise it
subtracts the raw (unclamped) elapsed difference from the total and
clamps the result at 0. -/
def getRemainingMs (s : RaceState) (now : Int) : Int :=
  match s.isRunning, s.startedAtMs with
  | true, some startedAt =>
      let elapsedMs := now - startedAt - s.pausedOffsetMs
      max 0 (s.totalRaceTimeMs - elapsedMs)
  | _, _ => s.totalRaceTimeMs

/-- Embedding of `getElapsedMs`: 0 when the race is not running or the
start timestamp is null, else `max 0 (now - startedAtMs - pausedOffsetMs)`. -/
def getElapsedMs (s : RaceState) (now : Int) : Int :=
  match s.isRunning, s.startedAtMs with
  | true, some startedAt => max 0 (now - startedAt - s.pausedOffsetMs)
  | _, _ => 0

/-- The spec's elapsed-time formula, written from the spec's words:
`if not isRunning then 0 else max(0, now - startedAtMs - pausedOffsetMs)`,
with a missing `startedAtMs` on a running record treated as elapsed 0. -/
def elapsedSpec (s : RaceState) (now : Int) : Int :=
  if s.isRunning = false then 0
  else
    match s.startedAtMs with
    | none => 0
    | some startedAt => max 0 (now - startedAt - s.pausedOffsetMs)

/-- The spec's remaining-time formula, written from the spec's words:
`totalRaceTimeMs` minus the (already clamped) elapsed value, floored at 0. -/
def remainingSpec (s : RaceState) (now : Int) : Int :=
  max 0 (s.totalRaceTimeMs - getElapsedMs s now)

/-- Claim C1: the elapsed-time function returns 0 when the record is not
running, returns 0 when `isRunning` is true but `startedAtMs` is absent,
and otherwise returns `max(0, now - startedAtMs - pausedOffsetMs)` —
i.e. it coincides everywhere with the spec's formula. -/
theorem C1_elapsed_matches_spec (s : RaceState) (now : Int) :
    getElapsedMs s now = elapsedSpec s now := by
  obtain ⟨run, started, p, laps, tot⟩ := s
  cases run <;> cases started <;> rfl

/-- Claim C2 counterexample: on a running record with
`startedAtMs = 100`, `pausedOffsetMs = 0`, `totalRaceTimeMs = 1000`, at
`now = 0` the code subtracts the UNCLAMPED elapsed difference (-100)
and returns 1100, which differs from the claimed
`max 0 (total - clamped elapsed) = 1000` and exceeds `totalRaceTimeMs`. -/
theorem C2_counterexample :
    getRemainingMs ⟨true, some 100, 0, [], 1000⟩ 0 = 1100
    ∧ remainingSpec ⟨true, some 100, 0, [], 1000⟩ 0 = 1000
    ∧ (⟨true, some 100, 0, [], 1000⟩ : RaceState).totalRaceTimeMs
        < getRemainingMs ⟨true, some 100, 0, [], 1000⟩ 0 := by
  decide

/-- Claim C2 (amended): the remaining-time function returns
`totalRaceTimeMs` when the record is not running or `startedAtMs` is
absent, and otherwise `max 0 (totalRaceTimeMs - (now - startedAtMs -
pausedOffsetMs))` computed from the unclamped difference; the result is
never negative as long as `totalRaceTimeMs` is nonnegative, and it
agrees with `totalRaceTimeMs` minus the clamped
elapsed value (floored at 0) whenever `now ≥ startedAtMs +
pausedOffsetMs`, but can exceed `totalRaceTimeMs` when `now` precedes
`startedAtMs + pausedOffsetMs`. -/
theorem C2_remaining_amended (s : RaceState) (now : Int) :
    (0 ≤ s.totalRaceTimeMs → 0 ≤ getRemainingMs s now)
    ∧ (s.isRunning = false → getRemainingMs s now = s.totalRaceTimeMs)
    ∧ (s.isRunning = true → s.startedAtMs = none →
        getRemainingMs s now = s.totalRaceTimeMs)
    ∧ (∀ startedAt, s.isRunning = true → s.startedAtMs = some startedAt →
        getRemainingMs s now =
          max 0 (s.totalRaceTimeMs - (now - startedAt - s.pausedOffsetMs)))
    ∧ (∀ startedAt, s.isRunning = true → s.startedAtMs = some startedAt →
        startedAt + s.pausedOffsetMs ≤ now →
        getRemainingMs s now = remainingSpec s now) := by
  obtain ⟨run, started, p, laps, tot⟩ := s
  refine ⟨?_, ?_, ?_, ?_, ?_⟩
  · intro htot
    cases run <;> cases started <;>
      simp only [getRemainingMs] at * <;> omega
  · intro h; subst h; cases started <;> rfl
  · intro h h2; subst h; subst h2; rfl
  · intro startedAt h h2; subst h; subst h2; rfl
  · intro startedAt h h2 h3
    subst h; subst h2
    simp only [getRemainingMs, getElapsedMs, remainingSpec] at *
    omega

/-- Witness for the amended claim C2 at a concrete non-running record,
a concrete running record observed after its effective start, and the
nonnegativity bound. -/
theorem C2_remaining_amended_witness :
    getRemainingMs ⟨false, none, 0, [], 1000⟩ 77 = 1000
    ∧ getRemainingMs ⟨true, some 0, 0, [], 1000⟩ 400 =
        remainingSpec ⟨true, some 0, 0, [], 1000⟩ 400
    ∧ 0 ≤ getRemainingMs ⟨true, some 0, 0, [], 1000⟩ 400 :=
  ⟨(C2_remaining_amended ⟨false, none, 0, [], 1000⟩ 77).2.1 rfl,
   (C2_remaining_amended ⟨true, some 0, 0, [], 1000⟩ 400).2.2.2.2 0 rfl rfl
     (by decide),
   (C2_remaining_amended ⟨true, some 0, 0, [], 1000⟩ 400).1 (by decide)⟩

/-- Claim C6 counterexample: in overtime the identity fails.  Running
record started at 0 with no pause offset and `totalRaceTimeMs = 1000`,
observed at `now = 2000 ≥ startedAtMs + pausedOffsetMs`: elapsed is
2000, remaining clamps to 0, and their sum 2000 differs from the total
1000. -/
theorem C6_counterexample :
    (0 : Int) + 0 ≤ 2000
    ∧ getElapsedMs ⟨true, some 0, 0, [], 1000⟩ 2000
        + getRemainingMs ⟨true, some 0, 0, [], 1000⟩ 2000 = 2000
    ∧ (⟨true, some 0, 0, [], 1000⟩ : RaceState).totalRaceTimeMs = 1000 := by
  decide

/-- Claim C6 (amended): for every running record with a present start
timestamp and every `now` between the effective start
`startedAtMs + pausedOffsetMs` and the race end
`startedAtMs + pausedOffsetMs + totalRaceTimeMs`, the elapsed-time
result plus the remaining-time result equals `totalRaceTimeMs` exactly,
in milliseconds before any rounding to seconds. -/
theorem C6_elapsed_plus_remaining (s : RaceState) (startedAt now : Int)
    (hrun : s.isRunning = true) (hstart : s.startedAtMs = some startedAt)
    (h1 : startedAt + s.pausedOffsetMs ≤ now)
    (h2 : now ≤ startedAt + s.pausedOffsetMs + s.totalRaceTimeMs) :
    getElapsedMs s now + getRemainingMs s now = s.totalRaceTimeMs := by
  obtain ⟨run, started, p, laps, tot⟩ := s
  simp only at hrun hstart h1 h2
  subst hrun; subst hstart
  simp only [getElapsedMs, getRemainingMs]
  omega

/-- Witness for the amended claim C6: the spec's own scenario
(`totalRaceTimeMs = 2100000`, `startedAtMs = 1000`,
`pausedOffsetMs = 0`, `now = 61000`) sums to the full race time. -/
theorem C6_elapsed_plus_remaining_witness :
    getElapsedMs ⟨true, some 1000, 0, [], 2100000⟩ 61000
      + getRemainingMs ⟨true, some 1000, 0, [], 2100000⟩ 61000 = 2100000 :=
  C6_elapsed_plus_remaining ⟨true, some 1000, 0, [], 2100000⟩ 1000 61000
    rfl rfl (by decide) (by decide)

/-- Claim C9: for a fixed record, the elapsed-time function is
non-decreasing and the remaining-time function is non-increasing in the
corrected-now argument. -/
theorem C9_monotonic (s : RaceState) (now1 now2 : Int) (h : now1 ≤ now2) :
    getElapsedMs s now1 ≤ getElapsedMs s now2
    ∧ getRemainingMs s now2 ≤ getRemainingMs s now1 := by
  obtain ⟨run, started, p, laps, tot⟩ := s
  cases run <;> cases started <;>
    simp [getElapsedMs, getRemainingMs] <;> omega

/-- Witness for claim C9 at a concrete running record and the pair of
instants 100 ≤ 200. -/
theorem C9_monotonic_witness :
    getElapsedMs ⟨true, some 0, 0, [], 1000⟩ 100
        ≤ getElapsedMs ⟨true, some 0, 0, [], 1000⟩ 200
    ∧ getRemainingMs ⟨true, some 0, 0, [], 1000⟩ 200
        ≤ getRemainingMs ⟨true, some 0, 0, [], 1000⟩ 100 :=
  C9_monotonic ⟨true, some 0, 0, [], 1000⟩ 100 200 (by decide)

/-- A database update payload for the race-state row, with one optional
slot per column that an admin command may write.  `none` means the
command leaves the column untouched; `some v` means the column is set
to `v`.  `startedAtMs` carries a nested option because the column is
nullable.  `updatedAtMs` models the `updated_at` value, which the code
produces from `new Date().toISOString()` — the client's raw local
clock, passed in here as `localNowMs`. -/
structure RaceUpdate where
  isRunning : Option Bool
  startedAtMs : Option (Option Int)
  pausedOffsetMs : Option Int
  elapsedSeconds : Option Int
  lapTimes : Option (List Int)
  updatedAtMs : Option Int
deriving DecidableEq, Repr

/-- The payload written by the starting branch of `startStop`:
`is_running = true`, `started_at_ms` = the freshly fetched server time,
`paused_offset_ms = 0`, `elapsed_seconds = 0`, `lap_times = []`,
`updated_at` from the local clock. -/
def startRaceUpdate (serverTimeMs localNowMs : Int) : RaceUpdate :=
  { isRunning := some true
    startedAtMs := some (some serverTimeMs)
    pausedOffsetMs := some 0
    elapsedSeconds := some 0
    lapTimes := some []
    updatedAtMs := some localNowMs }

/-- The payload written by the stopping branch of `startStop`:
`is_running = false`, `started_at_ms = null`, `updated_at` from the
local clock; no other column is touched. -/
def stopRaceUpdate (localNowMs : Int) : RaceUpdate :=
  { isRunning := some false
    startedAtMs := some none
    pausedOffsetMs := none
    elapsedSeconds := none
    lapTimes := none
    updatedAtMs := some localNowMs }

/-- The payload written by `recordLap`: only `lap_times` and
`updated_at`. -/
def recordLapUpdate (newLapTimes : List Int) (localNowMs : Int) : RaceUpdate :=
  { isRunning := none
    startedAtMs := none
    pausedOffsetMs := none
    elapsedSeconds := none
    lapTimes := some newLapTimes
    updatedAtMs := some localNowMs }

/-- The payload written by `reset`: `is_running = false`,
`started_at_ms = null`, `paused_offset_ms = 0`, `elapsed_seconds = 0`,
`lap_times = []`, `updated_at` from the local clock. -/
def resetUpdate (localNowMs : Int) : RaceUpdate :=
  { isRunning := some false
    startedAtMs := some none
    pausedOffsetMs := some 0
    elapsedSeconds := some 0
    lapTimes := some []
    updatedAtMs := some localNowMs }

/-- Apply an update payload to a race-state snapshot, as the row update
followed by the client's wholesale snapshot replacement does.  The
legacy `elapsed_seconds` column and the advisory `updated_at` column are
not part of the client snapshot; `total_race_time` is never written by
any admin command. -/
def applyUpdate (s : RaceState) (u : RaceUpdate) : RaceState :=
  { isRunning := u.isRunning.getD s.isRunning
    startedAtMs := u.startedAtMs.getD s.startedAtMs
    pausedOffsetMs := u.pausedOffsetMs.getD s.pausedOffsetMs
    lapTimes := u.lapTimes.getD s.lapTimes
    totalRaceTimeMs := s.totalRaceTimeMs }

/-- Embedding of the admin `startStop` action: when the race is not
running it writes the start payload with a freshly fetched server time,
otherwise the stop payload. -/
def startStop (s : RaceState) (serverTimeMs localNowMs : Int) : RaceState :=
  if s.isRunning = false then
    applyUpdate s (startRaceUpdate serverTimeMs localNowMs)
  else
    applyUpdate s (stopRaceUpdate localNowMs)

/-- Embedding of the admin `recordLap` action: guarded on the race
running; computes the current total elapsed seconds from
`getElapsedMs` at the admin's corrected time, subtracts the sum of the
prior laps, and appends the difference to `lap_times`. -/
def recordLap (s : RaceState) (correctedNow localNowMs : Int) : RaceState :=
  if s.isRunning = false then s
  else
    let elapsedMs := getElapsedMs s correctedNow
    let totalElapsedSec := elapsedMs / 1000
    let previousLapsTotal := s.lapTimes.sum
    let currentLapTime := totalElapsedSec - previousLapsTotal
    applyUpdate s (recordLapUpdate (s.lapTimes ++ [currentLapTime]) localNowMs)

/-- Embedding of the admin `reset` action. -/
def resetRace (s : RaceState) (localNowMs : Int) : RaceState :=
  applyUpdate s (resetUpdate localNowMs)

/-- Erase the advisory `updated_at` slot of a payload, leaving exactly
the columns that take part in race-time math. -/
def eraseAdvisory (u : RaceUpdate) : RaceUpdate :=
  { u with updatedAtMs := none }

/-- Claim C4: starting from any prior record state with the race not
running, `startStop` takes the starting branch and produces
`isRunning = true`, `startedAtMs` = the fetched Authority time,
`pausedOffsetMs = 0` and `lapTimes = []`, leaving the configured total
race time unchanged — a full restart, never a resume. -/
theorem C4_startRace (s : RaceState) (serverTimeMs localNowMs : Int)
    (h : s.isRunning = false) :
    (startStop s serverTimeMs localNowMs).isRunning = true
    ∧ (startStop s serverTimeMs localNowMs).startedAtMs = some serverTimeMs
    ∧ (startStop s serverTimeMs localNowMs).pausedOffsetMs = 0
    ∧ (startStop s serverTimeMs localNowMs).lapTimes = []
    ∧ (startStop s serverTimeMs localNowMs).totalRaceTimeMs
        = s.totalRaceTimeMs := by
  simp [startStop, h, applyUpdate, startRaceUpdate]

/-- Witness for claim C4: a record stopped with an accumulated pause
offset of 600000 ms and two recorded laps is fully reset by the start
branch. -/
theorem C4_startRace_witness :
    (startStop ⟨false, none, 600000, [185, 185], 2100000⟩
        1700000000000 1700000000123).isRunning = true
    ∧ (startStop ⟨false, none, 600000, [185, 185], 2100000⟩
        1700000000000 1700000000123).startedAtMs = some 1700000000000
    ∧ (startStop ⟨false, none, 600000, [185, 185], 2100000⟩
        1700000000000 1700000000123).pausedOffsetMs = 0
    ∧ (startStop ⟨false, none, 600000, [185, 185], 2100000⟩
        1700000000000 1700000000123).lapTimes = []
    ∧ (startStop ⟨false, none, 600000, [185, 185], 2100000⟩
        1700000000000 1700000000123).totalRaceTimeMs = 2100000 :=
  C4_startRace ⟨false, none, 600000, [185, 185], 2100000⟩
    1700000000000 1700000000123 rfl

/-- Claim C8 counterexample: stopping a running record whose
`pausedOffsetMs` is 500 leaves the offset at 500 — the elapsed time
since the most recent start (here 9999 ms at the moment of the press)
is NOT added, so the claimed post-stop value 500 + 9999 = 10499 never
appears; and starting a stopped record, which is neither a stop nor an
explicit reset, changes `pausedOffsetMs` from 500 to 0. -/
theorem C8_counterexample :
    (startStop ⟨true, some 0, 500, [], 2100000⟩ 9999 9999).pausedOffsetMs
        = 500
    ∧ (startStop ⟨true, some 0, 500, [], 2100000⟩ 9999 9999).isRunning
        = false
    ∧ getElapsedMs ⟨true, some 0, 500, [], 2100000⟩ 9999 = 9499
    ∧ (startStop ⟨false, none, 500, [42], 2100000⟩ 9999 9999).pausedOffsetMs
        = 0
    ∧ (startStop ⟨false, none, 500, [42], 2100000⟩ 9999 9999).isRunning
        = true := by
  decide

/-- Claim C8 (amended): `pausedOffsetMs` is written only by the
starting branch of `startStop` and by `resetRace`, both of which set it
to 0; the stopping branch and `recordLap` leave it unchanged (stop does
not add the elapsed time since the most recent start), and the
calculator functions invoked while the race is running never modify the
record at all. -/
theorem C8_pausedOffset_amended (s : RaceState)
    (serverTimeMs correctedNow localNowMs : Int) :
    (s.isRunning = false →
        (startStop s serverTimeMs localNowMs).pausedOffsetMs = 0)
    ∧ (s.isRunning = true →
        (startStop s serverTimeMs localNowMs).pausedOffsetMs
          = s.pausedOffsetMs)
    ∧ (recordLap s correctedNow localNowMs).pausedOffsetMs
        = s.pausedOffsetMs
    ∧ (resetRace s localNowMs).pausedOffsetMs = 0 := by
  refine ⟨?_, ?_, ?_, ?_⟩
  · intro h
    simp [startStop, h, applyUpdate, startRaceUpdate]
  · intro h
    simp [startStop, h, applyUpdate, stopRaceUpdate]
  · by_cases h : s.isRunning = false <;>
      simp [recordLap, h, applyUpdate, recordLapUpdate]
  · simp [resetRace, applyUpdate, resetUpdate]

/-- Witness for the amended claim C8: stop preserves a concrete
nonzero offset, and start and reset zero it. -/
theorem C8_pausedOffset_amended_witness :
    (startStop ⟨true, some 0, 500, [], 2100000⟩ 1 2).pausedOffsetMs = 500
    ∧ (startStop ⟨false, none, 500, [], 2100000⟩ 1 2).pausedOffsetMs = 0
    ∧ (resetRace ⟨true, some 0, 500, [], 2100000⟩ 2).pausedOffsetMs = 0 :=
  ⟨(C8_pausedOffset_amended ⟨true, some 0, 500, [], 2100000⟩ 1 3 2).2.1 rfl,
   (C8_pausedOffset_amended ⟨false, none, 500, [], 2100000⟩ 1 3 2).1 rfl,
   (C8_pausedOffset_amended ⟨true, some 0, 500, [], 2100000⟩ 1 3 2).2.2.2⟩

/-- Claim C5 counterexample: the `updated_at` timestamp column written
by the starting branch is the client's raw local clock reading, not an
Authority-derived value — holding the fetched Authority time fixed at
1000 and moving only the local clock from 2000 to 3000 changes the
written payload, and the written `updated_at` equals the local reading
2000 (≠ the Authority time 1000). -/
theorem C5_counterexample :
    startRaceUpdate 1000 2000 ≠ startRaceUpdate 1000 3000
    ∧ (startRaceUpdate 1000 2000).updatedAtMs = some 2000 := by
  decide

/-- Claim C5 (amended): every timestamp column that takes part in
race-time math (`started_at_ms`) written by any admin command is
Authority-derived — the starting branch writes exactly the fetched
Authority time, and stop/reset write the SQL null — and, with the
advisory `updated_at` column erased, no command's payload depends on
the client's local clock; the advisory `updated_at` column itself is
written from the local clock by every command. -/
theorem C5_timestamps_amended
    (serverTimeMs localNowMs otherLocalNowMs : Int) (newLapTimes : List Int) :
    (startRaceUpdate serverTimeMs localNowMs).startedAtMs
        = some (some serverTimeMs)
    ∧ (stopRaceUpdate localNowMs).startedAtMs = some none
    ∧ (recordLapUpdate newLapTimes localNowMs).startedAtMs = none
    ∧ (resetUpdate localNowMs).startedAtMs = some none
    ∧ eraseAdvisory (startRaceUpdate serverTimeMs localNowMs)
        = eraseAdvisory (startRaceUpdate serverTimeMs otherLocalNowMs)
    ∧ eraseAdvisory (stopRaceUpdate localNowMs)
        = eraseAdvisory (stopRaceUpdate otherLocalNowMs)
    ∧ eraseAdvisory (recordLapUpdate newLapTimes localNowMs)
        = eraseAdvisory (recordLapUpdate newLapTimes otherLocalNowMs)
    ∧ eraseAdvisory (resetUpdate localNowMs)
        = eraseAdvisory (resetUpdate otherLocalNowMs)
    ∧ (startRaceUpdate serverTimeMs localNowMs).updatedAtMs = some localNowMs
    ∧ (stopRaceUpdate localNowMs).updatedAtMs = some localNowMs
    ∧ (recordLapUpdate newLapTimes localNowMs).updatedAtMs = some localNowMs
    ∧ (resetUpdate localNowMs).updatedAtMs = some localNowMs := by
  refine ⟨rfl, rfl, rfl, rfl, rfl, rfl, rfl, rfl, rfl, rfl, rfl, rfl⟩

/-- Claim C7: with the race running, `recordLap` appends exactly
`floor(elapsedMs / 1000) - sum(prior laps)` to `lapTimes` and leaves
every other snapshot field unchanged; the spec's scenario holds: a lap
pressed at elapsed 185 s with empty `lapTimes` records 185, and a
second press at elapsed 370 s records 185 again. -/
theorem C7_recordLap (s : RaceState) (correctedNow localNowMs : Int)
    (h : s.isRunning = true) :
    (recordLap s correctedNow localNowMs).lapTimes
        = s.lapTimes ++ [getElapsedMs s correctedNow / 1000 - s.lapTimes.sum]
    ∧ (recordLap s correctedNow localNowMs).isRunning = s.isRunning
    ∧ (recordLap s correctedNow localNowMs).startedAtMs = s.startedAtMs
    ∧ (recordLap s correctedNow localNowMs).pausedOffsetMs
        = s.pausedOffsetMs
    ∧ (recordLap s correctedNow localNowMs).totalRaceTimeMs
        = s.totalRaceTimeMs
    ∧ (recordLap ⟨true, some 0, 0, [], 2100000⟩ 185000 localNowMs).lapTimes
        = [185]
    ∧ (recordLap (recordLap ⟨true, some 0, 0, [], 2100000⟩ 185000 localNowMs)
        370000 localNowMs).lapTimes = [185, 185] := by
  refine ⟨?_, ?_, ?_, ?_, ?_, ?_, ?_⟩ <;>
    simp [recordLap, h, applyUpdate, recordLapUpdate, getElapsedMs]

/-- Witness for claim C7: the spec's lap scenario at concrete inputs. -/
theorem C7_recordLap_witness :
    (recordLap ⟨true, some 0, 0, [], 2100000⟩ 185000 0).lapTimes = [185]
    ∧ (recordLap (recordLap ⟨true, some 0, 0, [], 2100000⟩ 185000 0)
        370000 0).lapTimes = [185, 185] :=
  ⟨(C7_recordLap ⟨true, some 0, 0, [], 2100000⟩ 185000 0 rfl).2.2.2.2.2.1,
   (C7_recordLap ⟨true, some 0, 0, [], 2100000⟩ 185000 0 rfl).2.2.2.2.2.2⟩

/-- One clock-sync measurement: a candidate offset (a rational, since
the midpoint `T0 + RTT/2` can fall on a half millisecond) together with
the round-trip time of the attempt. -/
structure SyncSample where
  offset : Rat
  rtt : Int
deriving DecidableEq, Repr

/-- Embedding of `measureClockOffset`, as a function of the two local
clock readings around the call and the Authority's response (`none`
models an errored attempt): `rtt = localAfter - localBefore`, the local
midpoint is `localBefore + rtt/2`, and the candidate offset is
`serverTimeMs - localMidpoint`. -/
def measureClockOffset (localBefore localAfter : Int)
    (serverResp : Option Int) : Option SyncSample :=
  match serverResp with
  | none => none
  | some serverTimeMs =>
      let rtt := localAfter - localBefore
      let localMidpoint : Rat := (localBefore : Rat) + (rtt : Rat) / 2
      some { offset := (serverTimeMs : Rat) - localMidpoint, rtt := rtt }

/-- The reducer of `syncClock`: keep the sample with the strictly
smaller round-trip time, preferring the later one on ties
(`a.rtt < b.rtt ? a : b`). -/
def bestSample (a b : SyncSample) : SyncSample :=
  if a.rtt < b.rtt then a else b

/-- Embedding of `syncClock`: collect the successful attempts, return
offset 0 when none succeeded, and otherwise the offset of the sample
selected by folding `bestSample` over the results (the JavaScript
`reduce` with the first result as the accumulator). -/
def syncClock (attempts : List (Option SyncSample)) : Rat :=
  match attempts.filterMap id with
  | [] => 0
  | r :: rs => (rs.foldl bestSample r).offset

theorem bestSample_eq_or (a b : SyncSample) :
    bestSample a b = a ∨ bestSample a b = b := by
  unfold bestSample
  split <;> simp

theorem bestSample_rtt_le_left (a b : SyncSample) :
    (bestSample a b).rtt ≤ a.rtt := by
  unfold bestSample
  split <;> omega

theorem bestSample_rtt_le_right (a b : SyncSample) :
    (bestSample a b).rtt ≤ b.rtt := by
  unfold bestSample
  split <;> omega

theorem foldl_bestSample_mem :
    ∀ (rs : List SyncSample) (r : SyncSample),
      rs.foldl bestSample r ∈ r :: rs := by
  intro rs
  induction rs with
  | nil => intro r; simp
  | cons b rs ih =>
      intro r
      simp only [List.foldl_cons]
      have h := ih (bestSample r b)
      rcases List.mem_cons.mp h with h1 | h1
      · rw [h1]
        rcases bestSample_eq_or r b with h2 | h2 <;> rw [h2] <;> simp
      · exact List.mem_cons.mpr (Or.inr (List.mem_cons.mpr (Or.inr h1)))

theorem foldl_bestSample_rtt_le :
    ∀ (rs : List SyncSample) (r : SyncSample) (x : SyncSample),
      x ∈ r :: rs → (rs.foldl bestSample r).rtt ≤ x.rtt := by
  intro rs
  induction rs with
  | nil =>
      intro r x hx
      rcases List.mem_cons.mp hx with h | h
      · rw [h]; exact le_rfl
      · cases h
  | cons b rs ih =>
      intro r x hx
      simp only [List.foldl_cons]
      rcases List.mem_cons.mp hx with h | h
      · calc (rs.foldl bestSample (bestSample r b)).rtt
              ≤ (bestSample r b).rtt :=
                ih (bestSample r b) (bestSample r b) (List.mem_cons_self ..)
            _ ≤ r.rtt := bestSample_rtt_le_left r b
            _ = x.rtt := by rw [h]
      · rcases List.mem_cons.mp h with h1 | h1
        · calc (rs.foldl bestSample (bestSample r b)).rtt
                ≤ (bestSample r b).rtt :=
                  ih (bestSample r b) (bestSample r b) (List.mem_cons_self ..)
              _ ≤ b.rtt := bestSample_rtt_le_right r b
              _ = x.rtt := by rw [h1]
        · exact ih (bestSample r b) x (List.mem_cons.mpr (Or.inr h1))

/-- Claim C3: a successful sync attempt produces the candidate offset
`authorityTime - (T0 + RTT/2)` with `RTT = T1 - T0`; the sample the
fold selects is one of the gathered samples and has the lowest RTT of
them all; and on the sample list
[(offset 5, rtt 40), (offset 50, rtt 120), (offset 8, rtt 35)] the
synchronizer returns 8. -/
theorem C3_sync_lowest_rtt :
    (∀ localBefore localAfter serverTimeMs : Int,
      measureClockOffset localBefore localAfter (some serverTimeMs)
        = some { offset := (serverTimeMs : Rat)
                    - ((localBefore : Rat)
                        + ((localAfter - localBefore : Int) : Rat) / 2),
                 rtt := localAfter - localBefore })
    ∧ (∀ (r : SyncSample) (rs : List SyncSample),
        rs.foldl bestSample r ∈ r :: rs
        ∧ ∀ x ∈ r :: rs, (rs.foldl bestSample r).rtt ≤ x.rtt)
    ∧ syncClock [some ⟨5, 40⟩, some ⟨50, 120⟩, some ⟨8, 35⟩] = 8 := by
  refine ⟨fun _ _ _ => rfl, ?_, by decide⟩
  intro r rs
  exact ⟨foldl_bestSample_mem rs r, fun x hx => foldl_bestSample_rtt_le rs r x hx⟩

/-- Witness for claim C3: on the spec's three samples, the selected
sample's RTT is at most each gathered sample's RTT. -/
theorem C3_sync_lowest_rtt_witness :
    (([⟨50, 120⟩, ⟨8, 35⟩] : List SyncSample).foldl bestSample ⟨5, 40⟩).rtt
        ≤ SyncSample.rtt ⟨50, 120⟩
    ∧ (([⟨50, 120⟩, ⟨8, 35⟩] : List SyncSample).foldl bestSample ⟨5, 40⟩).rtt
        ≤ SyncSample.rtt ⟨5, 40⟩ :=
  ⟨(C3_sync_lowest_rtt.2.1 ⟨5, 40⟩ [⟨50, 120⟩, ⟨8, 35⟩]).2 ⟨50, 120⟩
      (by simp),
   (C3_sync_lowest_rtt.2.1 ⟨5, 40⟩ [⟨50, 120⟩, ⟨8, 35⟩]).2 ⟨5, 40⟩
      (by simp)⟩

/-- Claim C10: when every synchronization attempt fails (every gathered
result is `none`), the synchronizer returns offset 0. -/
theorem C10_sync_total_failure (attempts : List (Option SyncSample))
    (h : ∀ x ∈ attempts, x = none) : syncClock attempts = 0 := by
  have hnil : attempts.filterMap id = [] := by
    cases hE : attempts.filterMap id with
    | nil => rfl
    | cons r rs =>
        have hr : r ∈ attempts.filterMap id := by
          rw [hE]; exact List.mem_cons_self ..
        rcases List.mem_filterMap.mp hr with ⟨x, hx, hid⟩
        rw [h x hx] at hid
        cases hid
  unfold syncClock
  rw [hnil]

/-- Witness for claim C10: three failed attempts yield offset 0. -/
theorem C10_sync_total_failure_witness :
    syncClock [none, none, none] = 0 :=
  C10_sync_total_failure [none, none, none] (by simp)
